import Mathlib

/-!
Verification of the nflaunch job-launcher against its design specification.

This development shallowly embeds the parts of the code base that the
specification's testable properties talk about:

* `JobConfig.postInit` — the derived-field computation of
  `nflaunch/backends/base.py` (`JobConfig.__post_init__`);
* `nextflowBuild` — the command assembly of
  `nflaunch/command/nextflow.py` (`NextflowCommandBuilder.build`);
* `gcpUpload`, `gcpUploadDirectory`, `gcpExecutorBuild`, `gcpLaunchJob` —
  the GCP backend of `nflaunch/backends/gcp/{file,batch}.py`, with their
  observable effects (log lines, local file writes, cloud API calls)
  reified as an explicit `Event` trace;
* `regGet` / `regRegister` — the registries of `nflaunch/utils/registry.py`.

Python strings are modelled as Lean `String`s and all string manipulation is
performed on the underlying character lists so that every definition reduces
by computation.  POSIX paths are resolved lexically (the model assumes no
symbolic links); `os.path.expanduser`/`expandvars` are external collaborators
of the repository and appear as an oracle function in the environment.
-/

/-! ## String infrastructure -/

/-- Characters counted as whitespace by Python `str.strip()` (ASCII model). -/
def isPyWhitespace (c : Char) : Bool :=
  c = ' ' || c = '\t' || c = '\n' || c = '\x0d' || c = '\x0b' || c = '\x0c'

/-- Python `s.strip()` on ASCII whitespace. -/
def pyStrip (s : String) : String :=
  String.mk (((s.data.dropWhile isPyWhitespace).reverse.dropWhile isPyWhitespace).reverse)

/-- ASCII lower-casing of a character, as Python `str.lower()` does on ASCII. -/
def asciiLower (c : Char) : Char :=
  if 'A' ≤ c && c ≤ 'Z' then Char.ofNat (c.toNat + 32) else c

/-- Python `s.lower()` (ASCII model). -/
def pyLower (s : String) : String :=
  String.mk (s.data.map asciiLower)

/-- Python `s.replace(a, b)` for single characters. -/
def pyReplaceChar (a b : Char) (s : String) : String :=
  String.mk (s.data.map (fun c => if c = a then b else c))

/-- Python slicing `s[:n]`. -/
def pyTake (s : String) (n : Nat) : String :=
  String.mk (s.data.take n)

/-- Python slicing `s[-n:]` (the whole string when it is shorter than `n`). -/
def pyTakeRight (s : String) (n : Nat) : String :=
  String.mk (s.data.drop (s.data.length - n))

/-- Python `s.endswith(t)`. -/
def pyEndsWith (s t : String) : Bool :=
  t.data.isSuffixOf s.data

/-- Python `" ".join`-style joining of command fragments with a separator. -/
def joinWith (sep : String) : List String → String
  | [] => ""
  | [x] => x
  | x :: y :: ys => x ++ sep ++ joinWith sep (y :: ys)

/-- The space-separated tokens of a string (Python `s.split(" ")`). -/
def strTokens (s : String) : List (List Char) :=
  s.data.splitOn ' '

theorem strData_append (a b : String) : (a ++ b).data = a.data ++ b.data := rfl

theorem strAppend_assoc (a b c : String) : a ++ b ++ c = a ++ (b ++ c) := by
  apply congrArg String.mk
  exact List.append_assoc a.data b.data c.data

/-! ## POSIX path model

Paths are sequences of `/`-separated components.  `resolveComps` is the
lexical core of `pathlib.Path.resolve()` in a file system without symbolic
links: make the path absolute against the current working directory, drop
empty and `.` components, and cancel `..` components against their parent. -/

/-- Components produced by splitting a path string at `/`, with empty and
`.` components discarded, the way `pathlib` parses a POSIX path. -/
def pathSplit (s : String) : List (List Char) :=
  (s.data.splitOn '/').filter (fun c => decide (c ≠ [] ∧ c ≠ ['.']))

/-- Does the path string start with `/` (POSIX `is_absolute`)? -/
def isAbsStr (s : String) : Bool :=
  s.data.head? = some '/'

/-- Stack-based normalization of path components: skips `.` and empty
components and lets `..` cancel the previous component (`/..` stays at the
root), as lexical `Path.resolve` does without symlinks. -/
def normAux : List (List Char) → List (List Char) → List (List Char)
  | acc, [] => acc.reverse
  | acc, c :: rest =>
    if c = [] ∨ c = ['.'] then normAux acc rest
    else if c = ['.', '.'] then normAux (acc.drop 1) rest
    else normAux (c :: acc) rest

/-- Resolved (absolute, normalized) components of `s` against working
directory `cwd`. -/
def resolveComps (cwd : List (List Char)) (s : String) : List (List Char) :=
  let base := if isAbsStr s then [] else cwd
  normAux [] (base ++ pathSplit s)

/-- Rendering of absolute components back to a POSIX path string
(`/` for the root). -/
def renderAbs (comps : List (List Char)) : String :=
  String.mk ('/' :: List.intercalate ['/'] comps)

/-- Python `str(Path(s).resolve())` in the lexical no-symlink model. -/
def resolveStr (cwd : List (List Char)) (s : String) : String :=
  renderAbs (resolveComps cwd s)

/-- Python `Path(s).name`: the final parsed component (empty for the root). -/
def pathNameStr (s : String) : String :=
  String.mk ((pathSplit s).getLast?.getD [])

/-- Rendering of `Path.relative_to` output: the components joined by `/`,
with `.` for an empty relative path. -/
def renderRel (comps : List (List Char)) : String :=
  match comps with
  | [] => "."
  | _ => String.mk (List.intercalate ['/'] comps)

/-- Rendering of `path.relative_to(path.parent.parent)`: the last two
components of the path (fewer near the root). -/
def lastTwoStr (comps : List (List Char)) : String :=
  renderRel (comps.drop (comps.length - 2))

/-! ## Job configuration (`nflaunch/backends/base.py` and `gcp/job.py`) -/

/-- The fields of `GCPJobConfig` (the provider-specific `JobConfig`).
`sample_id` is optional as in the source; `labels` is an insertion-ordered
association list standing for the Python `dict`. -/
structure JobConfig where
  container_image : String := ""
  backend : String := ""
  base_bucket : String := ""
  remote_cache_path : String := ""
  remote_run_path : String := ""
  workflowrun_id : String := ""
  pipeline_name : String := ""
  pipeline_version : String := ""
  profile : String := ""
  params_file : String := ""
  config_file : String := ""
  executor_config_file : String := ""
  samplesheet : String := ""
  nextflow_version : String := ""
  sample_id : Option String := none
  plugin : String := ""
  resume : String := ""
  dry_run : Bool := false
  tmp_dir : String := ""
  config_mount_path : String := ""
  job_id : String := ""
  project_id : String := ""
  region : String := ""
  service_account_email : String := ""
  network : Option String := none
  subnetwork : Option String := none
  use_private_address : Bool := true
  spot : Bool := false
  labels : List (String × String) := []
  upload_max_workers : Nat := 1
  machine_type : String := ""
  cpu_milli : Nat := 0
  memory_mib : Nat := 0
  deriving Repr, DecidableEq

/-- The external environment of a run: the working directory (as resolved
components), file-system oracles for `Path.exists` / `Path.is_dir`, the
`os.path.expandvars(os.path.expanduser(-))` oracle, and the temporary-root
setting (`NF_LAUNCH_TMPDIR` / `TMPDIR` / `.tmp`). -/
structure RunEnv where
  cwd : List (List Char) := []
  pathExistsAt : String → Bool := fun _ => false
  isDirAt : String → Bool := fun _ => false
  expand : String → String := id
  baseTmp : String := ".tmp"

/-- The `self.sample_id or self.workflowrun_id[-8:]` defaulting of
`__post_init__`: Python treats `None` and the empty string as falsy. -/
def defaultedSampleId (cfg : JobConfig) : String :=
  match cfg.sample_id with
  | some s => if s = "" then pyTakeRight cfg.workflowrun_id 8 else s
  | none => pyTakeRight cfg.workflowrun_id 8

/-- The `job_id` derivation of `__post_init__` from the (defaulted) sample
id and the first 8 characters of the workflow-run id. -/
def derivedJobId (sampleId first8 : String) : String :=
  "nf-runner-" ++ pyLower (pyReplaceChar ',' '-' sampleId) ++ "-" ++ first8

/-- Shallow embedding of `JobConfig.__post_init__` (`backends/base.py`,
lines 76-95): derives `tmp_dir`, `config_mount_path`, the defaulted
`sample_id`, `job_id`, the defaulted `executor_config_file`, and rewrites an
existing local pipeline reference to its resolved absolute form.  The
`mkdir` performed by `ensure_directory` is a file-system effect not needed
by any claim and is not recorded. -/
def JobConfig.postInit (cfg : JobConfig) (env : RunEnv) : JobConfig :=
  let tmpDir := resolveStr env.cwd (env.expand env.baseTmp) ++ "/" ++ cfg.workflowrun_id
  let sampleId := defaultedSampleId cfg
  let jobId := derivedJobId sampleId (pyTake cfg.workflowrun_id 8)
  let execFile :=
    if cfg.executor_config_file ≠ "" then
      resolveStr env.cwd (env.expand cfg.executor_config_file)
    else tmpDir ++ "/gcp.config"
  let pipelineExpanded := env.expand (pyStrip cfg.pipeline_name)
  let pipelineName :=
    if env.pathExistsAt pipelineExpanded then resolveStr env.cwd pipelineExpanded
    else cfg.pipeline_name
  { cfg with
    tmp_dir := tmpDir
    config_mount_path := "/etc/nextflow"
    sample_id := some sampleId
    job_id := jobId
    executor_config_file := execFile
    pipeline_name := pipelineName }

/-- Assignment `d[k] = v` on an insertion-ordered association list, with
Python `dict` semantics: an existing key keeps its position, a new key is
appended at the end. -/
def dictSet (l : List (String × String)) (k v : String) : List (String × String) :=
  if l.any (fun kv => kv.1 = k) then l.map (fun kv => if kv.1 = k then (k, v) else kv)
  else l.concat (k, v)

/-- Shallow embedding of `GCPJobConfig.__post_init__` (`backends/gcp/job.py`):
runs the base initializer and then fills GCP defaults.  `os.cpu_count()` is
passed in as `cpuCount`. -/
def JobConfig.gcpPostInit (cfg : JobConfig) (env : RunEnv) (cpuCount : Nat) : JobConfig :=
  let c := cfg.postInit env
  { c with
    upload_max_workers := if c.upload_max_workers = 0 then cpuCount else c.upload_max_workers
    remote_cache_path :=
      if c.remote_cache_path = "" then c.base_bucket ++ "/cache" else c.remote_cache_path
    remote_run_path :=
      if c.remote_run_path = "" then c.base_bucket ++ "/run" else c.remote_run_path
    labels := dictSet c.labels "workflowrun_id" c.workflowrun_id
    cpu_milli := if c.cpu_milli = 0 then 2000 else c.cpu_milli
    memory_mib := if c.memory_mib = 0 then 2000 else c.memory_mib
    machine_type := if c.machine_type = "" then "e2-small" else c.machine_type }

/-! ## Nextflow command builder (`nflaunch/command/nextflow.py`) -/

/-- The exported cache settings prepended to every built command
(`cache_cmd` in `NextflowCommandBuilder.build`). -/
def cacheCmdOf (cfg : JobConfig) : String :=
  "export NXF_CLOUDCACHE_PATH=gs://" ++ cfg.remote_cache_path ++
    " && export NXF_IGNORE_RESUME_HISTORY=true"

/-- The three pipeline-reference kinds distinguished by the builder. -/
inductive PipelineKind where
  | remote
  | localFile
  | localDir
  deriving Repr, DecidableEq

/-- Classification of the pipeline reference: a directory wins over a
`.nf` suffix, anything else is a remote reference. -/
def pipelineKind (cfg : JobConfig) (pipelineIsDir : Bool) : PipelineKind :=
  if pipelineIsDir then .localDir
  else if pyEndsWith cfg.pipeline_name ".nf" then .localFile
  else .remote

/-- The five base fragments of the Nextflow command after the
remote/local-file/local-directory overrides of `build` (lines 43-71): the
remote skeleton first, the `.nf` file override at index 2 next, and the
directory override of indices 0 and 2 last. -/
def baseFragments (cfg : JobConfig) (pipelineIsDir : Bool) : List String :=
  let mnt := cfg.config_mount_path
  let endsNf := pyEndsWith cfg.pipeline_name ".nf"
  let isLocal := endsNf || pipelineIsDir
  let base : List String :=
    if isLocal then
      ["nextflow", "-log " ++ mnt ++ "/logs/nextflow.log",
       "run " ++ cfg.pipeline_name,
       "-c " ++ mnt ++ "/config/" ++ pathNameStr cfg.executor_config_file,
       "-name " ++ cfg.workflowrun_id]
    else
      ["nextflow", "-log " ++ mnt ++ "/logs/nextflow.log",
       "run " ++ cfg.pipeline_name ++ " -revision " ++ cfg.pipeline_version,
       "-c " ++ mnt ++ "/config/" ++ pathNameStr cfg.executor_config_file,
       "-name " ++ cfg.workflowrun_id]
  let base :=
    if endsNf then
      base.set 2 ("run " ++ mnt ++ "/config/" ++ pathNameStr cfg.pipeline_name)
    else base
  if pipelineIsDir then
    (base.set 0 ("cd " ++ mnt ++ "/config/" ++ pathNameStr cfg.pipeline_name ++
      " && nextflow")).set 2 "run ."
  else base

/-- The optional `-c` / `-params-file` / `-profile` fragments appended by
`build` (lines 82-89); Python falsiness skips empty names. -/
def appendOptions (cfg : JobConfig) (parts : List String) : List String :=
  let mnt := cfg.config_mount_path
  let parts :=
    match (if cfg.config_file ≠ "" then some (pathNameStr cfg.config_file) else none) with
    | some n => if n ≠ "" then parts ++ ["-c " ++ mnt ++ "/config/" ++ n] else parts
    | none => parts
  let parts :=
    match (if cfg.params_file ≠ "" then some (pathNameStr cfg.params_file) else none) with
    | some n => if n ≠ "" then parts ++ ["-params-file " ++ mnt ++ "/input/" ++ n] else parts
    | none => parts
  if cfg.profile ≠ "" then parts ++ ["-profile " ++ cfg.profile] else parts

/-- Shallow embedding of `NextflowCommandBuilder.build`
(`command/nextflow.py`, lines 25-98).  `pipelineIsDir` stands for
`Path(pipeline_name).is_dir()`.  Returns the final fragment list together
with the complete chained command string; a malformed resume token is the
`ValueError` raised by the source. -/
def nextflowBuild (cfg : JobConfig) (pipelineIsDir : Bool) :
    Except String (List String × String) :=
  let base := baseFragments cfg pipelineIsDir
  let afterResume : Except String (List String) :=
    if cfg.resume ≠ "" then
      match cfg.resume.data.splitOn ',' with
      | [rn, sid] =>
        .ok (base.set 4 ("-name " ++ String.mk rn ++ " -resume " ++ String.mk sid))
      | _ =>
        .error ("Invalid resume format. Expected \x27WORKFLOWRUN_ID,SESSION_ID\x27, got \x27" ++
          cfg.resume ++ "\x27")
    else .ok base
  match afterResume with
  | .error e => .error e
  | .ok parts =>
    let parts := appendOptions cfg parts
    .ok (parts, cacheCmdOf cfg ++ " && " ++ joinWith " " parts)

/-! ## Registries (`nflaunch/utils/registry.py`) -/

/-- The error raised on an unknown registry key, carrying the key kind
(`backend` or `plugin`), the requested key, and the registered keys. -/
structure RegErr where
  kind : String
  key : String
  available : List String
  deriving Repr, DecidableEq

/-- Python `repr` of a string (single quotes; keys contain no escapes). -/
def pyQuoted (s : String) : String := "\x27" ++ s ++ "\x27"

/-- Python `str` of a list of strings, e.g. `["a", "b"]` prints as
the bracketed comma-separated quoted list. -/
def pyStrListRepr (l : List String) : String :=
  "[" ++ joinWith ", " (l.map pyQuoted) ++ "]"

/-- The message of the `ValueError` raised by `BackendRegistry.get` /
`PluginRegistry.get` on an unknown key. -/
def regErrMessage (e : RegErr) : String :=
  "Unknown " ++ e.kind ++ ": " ++ pyQuoted e.key ++ ". Available " ++ e.kind ++ "s: " ++
    pyStrListRepr e.available

/-- Keys of a registry in insertion order (`dict.keys()`). -/
def regKeys {V : Type} (m : List (String × V)) : List String :=
  m.map Prod.fst

/-- Dictionary lookup (`self._registry[key]`). -/
def regLookup {V : Type} : List (String × V) → String → Option V
  | [], _ => none
  | (k, v) :: rest, key => if k = key then some v else regLookup rest key

/-- Dictionary assignment used by `register`: overwrite in place or append. -/
def regRegister {V : Type} : List (String × V) → String → V → List (String × V)
  | [], key, v => [(key, v)]
  | (k, w) :: rest, key, v =>
    if k = key then (key, v) :: rest else (k, w) :: regRegister rest key v

/-- Shallow embedding of `BackendRegistry.get` / `PluginRegistry.get`:
return the registered value, or the `ValueError` listing the registered
keys. -/
def regGet {V : Type} (kind : String) (m : List (String × V)) (key : String) :
    Except RegErr V :=
  match regLookup m key with
  | some v => .ok v
  | none => .error ⟨kind, key, regKeys m⟩

/-- The batch-client classes registrable as backends. -/
inductive BackendImpl where
  | gcpBatchClient
  deriving Repr, DecidableEq

/-- The job-config-builder classes registrable as backends. -/
inductive BuilderImpl where
  | gcpJobConfigBuilder
  deriving Repr, DecidableEq

/-- The plugin classes registrable in the plugin registry. -/
inductive PluginImpl where
  | oncoanalyserPlugin
  deriving Repr, DecidableEq

/-- The module-level backend registry after registration
(`registry.py`, line 102). -/
def backendRegistryMap : List (String × (BackendImpl × BuilderImpl)) :=
  regRegister [] "google-batch" (.gcpBatchClient, .gcpJobConfigBuilder)

/-- The module-level plugin registry after registration
(`registry.py`, line 105). -/
def pluginRegistryMap : List (String × PluginImpl) :=
  regRegister [] "oncoanalyser" .oncoanalyserPlugin

/-! ## Observable effects of the GCP backend -/

/-- Shallow embedding of `parse_gcs_path` (`backends/gcp/file.py`, lines
16-36): split a `gs://bucket/prefix` URI into bucket and prefix, the prefix
stripped of surrounding slashes.  (Query and fragment URI parts are outside
the modelled inputs.) -/
def parseGcsPath (uri : String) : Except String (String × String) :=
  if "gs://".data.isPrefixOf uri.data then
    let rest := uri.data.drop 5
    let netloc := rest.takeWhile (fun c => c ≠ '/')
    let path := rest.dropWhile (fun c => c ≠ '/')
    let stripped := ((path.dropWhile (fun c => c = '/')).reverse.dropWhile (fun c => c = '/')).reverse
    .ok (String.mk netloc, String.mk stripped)
  else .error "Invalid GCS URI: must start with \x27gs://\x27"

/-- Bucket part of a run path, as `parse_gcs_path` extracts it after the
`gs://` scheme is prepended. -/
def gcsBucketOf (runPath : String) : String :=
  String.mk (runPath.data.takeWhile (fun c => c ≠ '/'))

/-- Object-prefix part of a run path, as `parse_gcs_path` extracts it. -/
def gcsObjectPfxOf (runPath : String) : String :=
  String.mk ((((runPath.data.dropWhile (fun c => c ≠ '/')).dropWhile
    (fun c => c = '/')).reverse.dropWhile (fun c => c = '/')).reverse)

/-- The Cloud Batch job request assembled by `GCPBatchClient.launch_job`
(`backends/gcp/batch.py`, lines 51-138), with the fields the source sets. -/
structure JobRequestR where
  parent : String
  jobId : String
  imageUri : String
  entrypoint : String
  commands : List String
  remotePath : String
  mountPath : String
  cpuMilli : Nat
  memoryMib : Nat
  machineType : String
  spotProvisioning : Bool
  noExternalIp : Bool
  network : Option String
  subnetwork : Option String
  serviceAccountEmail : String
  labels : List (String × String)
  deriving Repr, DecidableEq

/-- One observable effect of a backend operation: a log line, a local file
write, or a call against the cloud storage / batch APIs. -/
inductive Event where
  | logInfo (msg : String)
  | fileWrite (path content : String)
  | fileWriteReq (path : String) (req : JobRequestR)
  | fileWriteResp (path : String) (req : JobRequestR)
  | netUploadBlob (bucket blob src : String)
  | netTransferMany (bucket blobPfx : String) (files : List String)
  | netCreateJob (req : JobRequestR)
  deriving Repr, DecidableEq

/-- Is the event a network call to the cloud storage or batch API? -/
def Event.isNet : Event → Bool
  | .netUploadBlob _ _ _ => true
  | .netTransferMany _ _ _ => true
  | .netCreateJob _ => true
  | _ => false

/-- Is the event a write of a local file? -/
def Event.isLocalWrite : Event → Bool
  | .fileWrite _ _ => true
  | .fileWriteReq _ _ => true
  | .fileWriteResp _ _ => true
  | _ => false

/-- No event of the trace is a network call. -/
def noNetworkCalls (t : List Event) : Bool :=
  t.all (fun e => !e.isNet)

/-- Events of an operation that may also fail (a raised exception produces
no further events). -/
def eventsOf (r : Except String (List Event)) : List Event :=
  match r with
  | .ok t => t
  | .error _ => []

/-- Subdirectory classification of `GCPFileUploader.upload`: the params
file and the samplesheet are inputs, everything else is config. -/
def uploadSubdirectory (cfg : JobConfig) (localPath : String) : String :=
  if localPath = cfg.params_file ∨ localPath = cfg.samplesheet then "input" else "config"

/-- Destination object name computed by `GCPFileUploader.upload`. -/
def uploadDestination (cfg : JobConfig) (env : RunEnv) (localPath : String) : String :=
  gcsObjectPfxOf cfg.remote_run_path ++ "/" ++ cfg.workflowrun_id ++ "/" ++
    uploadSubdirectory cfg localPath ++ "/" ++
    String.mk ((resolveComps env.cwd localPath).getLast?.getD [])

/-- Shallow embedding of `GCPFileUploader.upload` (`backends/gcp/file.py`,
lines 89-131).  In dry-run mode the only effect is the log line; otherwise
the blob upload is attempted and logged. -/
def gcpUpload (cfg : JobConfig) (env : RunEnv) (localPath : String) :
    Except String (List Event) := do
  let bp ← parseGcsPath ("gs://" ++ cfg.remote_run_path)
  let bucketName := bp.1
  let filePath := resolveComps env.cwd localPath
  let fileName := String.mk (filePath.getLast?.getD [])
  let destinationBlob := bp.2 ++ "/" ++ cfg.workflowrun_id ++ "/" ++
    uploadSubdirectory cfg localPath ++ "/" ++ fileName
  if cfg.dry_run then
    pure [.logInfo ("[DRY-RUN] Will upload " ++ lastTwoStr filePath ++ " to gs://" ++
      bucketName ++ "/" ++ destinationBlob)]
  else
    pure [.netUploadBlob bucketName destinationBlob localPath,
      .logInfo ("Uploaded " ++ lastTwoStr filePath ++ " to gs://" ++
        bucketName ++ "/" ++ destinationBlob)]

/-- One entry yielded by `root.rglob("*")`, as components relative to the
resolved directory root (the model assumes resolved, symlink-free paths). -/
structure DirEntry where
  rel : List (List Char)
  isDirEntry : Bool
  deriving Repr, DecidableEq

/-- Shallow embedding of `iter_directory_files` (`utils/upload.py`, lines
9-27): the absolute component lists of the regular files under the root
none of whose path components (root components included) is excluded. -/
def iterDirectoryFiles (rootComps : List (List Char)) (entries : List DirEntry)
    (excludeDirs : List (List Char)) : List (List (List Char)) :=
  (entries.filter (fun e =>
    !e.isDirEntry &&
      !((rootComps ++ e.rel).any (fun part => excludeDirs.contains part)))).map
    (fun e => rootComps ++ e.rel)

/-- Shallow embedding of `relative_paths` (`utils/upload.py`, lines 30-43):
rewrite resolved file paths relative to the resolved base. -/
def relativePathsTo (files : List (List (List Char))) (base : List (List Char)) :
    List (List (List Char)) :=
  files.map (fun f => f.drop base.length)

/-- Relative string paths handed to the transfer manager for a directory
upload: the regular files under the root (excluding `.git` components),
rewritten relative to the root. -/
def dirUploadRelFiles (rootComps : List (List Char)) (entries : List DirEntry) : List String :=
  (relativePathsTo (iterDirectoryFiles rootComps entries [".git".data]) rootComps).map renderRel

/-- Blob-name `pfx` used by `upload_directory` for a given resolved root. -/
def dirUploadBlobPfx (cfg : JobConfig) (rootComps : List (List Char)) : String :=
  gcsObjectPfxOf cfg.remote_run_path ++ "/" ++ cfg.workflowrun_id ++ "/config/" ++
    String.mk (rootComps.getLast?.getD []) ++ "/"

/-- Shallow embedding of `GCPFileUploader.upload_directory`
(`backends/gcp/file.py`, lines 133-183).  `entries` is the `rglob` listing
of the resolved directory; the transfer manager uploads each relative path
under the blob-name prefix. -/
def gcpUploadDirectory (cfg : JobConfig) (env : RunEnv) (entries : List DirEntry)
    (directoryPath : String) (_maxWorkers : Nat) : Except String (List Event) := do
  let rootComps := resolveComps env.cwd directoryPath
  let rootStr := renderAbs rootComps
  if !(env.isDirAt rootStr) then
    throw ("Directory not found: " ++ directoryPath)
  else do
    let stringPaths := dirUploadRelFiles rootComps entries
    let foundEvents : List Event :=
      if cfg.dry_run then
        [.logInfo ("[DRY-RUN] Found " ++ toString stringPaths.length ++ " files in " ++
          rootStr ++ " ready to upload")]
      else []
    let bp ← parseGcsPath ("gs://" ++ cfg.remote_run_path)
    let blobNamePfx := bp.2 ++ "/" ++ cfg.workflowrun_id ++ "/config/" ++
      String.mk (rootComps.getLast?.getD []) ++ "/"
    if cfg.dry_run then
      pure (foundEvents ++ [.logInfo ("[DRY-RUN] Will upload " ++ rootStr ++ " to gs://" ++
        bp.1 ++ "/" ++ blobNamePfx)])
    else
      pure (foundEvents ++ [.netTransferMany bp.1 blobNamePfx stringPaths,
        .logInfo ("Uploaded " ++ rootStr ++ " to gs://" ++ bp.1 ++ "/" ++ blobNamePfx)])

/-- Destinations of the transfers attempted by an event: the transfer
manager uploads each listed filename under the blob-name prefix. -/
def transferDestinations : Event → List String
  | .netTransferMany _ pfxBlob files => files.map (fun f => pfxBlob ++ f)
  | .netUploadBlob _ blob _ => [blob]
  | _ => []

/-- Number of transfers attempted over a whole trace. -/
def transferAttemptCount (t : List Event) : Nat :=
  (t.map (fun e => (transferDestinations e).length)).sum

/-- Python `str(b).lower()` for a boolean substitution value. -/
def pyBoolStrLower (b : Bool) : String :=
  if b then "true" else "false"

/-- Shallow embedding of `GCPExecutorConfigBuilder.build`
(`backends/gcp/file.py`, lines 203-252).  `render` stands for
`string.Template(template_text).substitute`, `extrasText` for the verbatim
extras template, `logSfx` for the timestamp suffix.  The combined text is
written to `executor_config_file` and the destination is logged — note the
source writes the file before consulting `dry_run`. -/
def gcpExecutorBuild (cfg : JobConfig) (render : List (String × String) → String)
    (extrasText : String) (logSfx : String) : List Event :=
  let gcpConfigFile := cfg.executor_config_file
  let labels := dictSet cfg.labels "workflowrun_id" cfg.workflowrun_id
  let resourceLabels :=
    joinWith ", " (labels.map (fun kv => "\"" ++ kv.1 ++ "\": \"" ++ kv.2 ++ "\""))
  let config := render
    [("base_bucket", cfg.base_bucket),
     ("remote_run_path", cfg.remote_run_path),
     ("workflowrun_id", cfg.workflowrun_id),
     ("log_suffix", logSfx),
     ("project_id", cfg.project_id),
     ("region", cfg.region),
     ("use_private_address", pyBoolStrLower cfg.use_private_address),
     ("spot", pyBoolStrLower cfg.spot),
     ("network", cfg.network.getD ""),
     ("subnetwork", cfg.subnetwork.getD ""),
     ("service_account_email", cfg.service_account_email),
     ("resource_labels", resourceLabels)]
  [Event.fileWrite gcpConfigFile (config ++ extrasText),
   if cfg.dry_run then
     Event.logInfo ("[DRY-RUN] Will write executor config file " ++ gcpConfigFile)
   else
     Event.logInfo ("GCP Batch executor config written to: " ++ gcpConfigFile)]

/-- The `CreateJobRequest` assembled by `launch_job` for a given built
Nextflow command. -/
def launchRequestOf (cfg : JobConfig) (nxfCmd : String) : JobRequestR :=
  { parent := "projects/" ++ cfg.project_id ++ "/locations/" ++ cfg.region
    jobId := cfg.job_id
    imageUri :=
      if !(cfg.container_image.data.contains ':') then
        cfg.container_image ++ ":" ++ cfg.nextflow_version
      else cfg.container_image
    entrypoint := "/bin/bash"
    commands := ["-c", nxfCmd]
    remotePath := cfg.remote_run_path ++ "/" ++ cfg.workflowrun_id
    mountPath := cfg.config_mount_path
    cpuMilli := cfg.cpu_milli
    memoryMib := cfg.memory_mib
    machineType := cfg.machine_type
    spotProvisioning := cfg.spot
    noExternalIp := cfg.use_private_address
    network := cfg.network
    subnetwork := cfg.subnetwork
    serviceAccountEmail := cfg.service_account_email
    labels := cfg.labels }

/-- Shallow embedding of `GCPBatchClient.launch_job` (`backends/gcp/batch.py`,
lines 51-167).  The request is assembled from the configuration; in dry-run
mode it is serialized to the local artifact file and the method returns
without touching the batch API. -/
def gcpLaunchJob (cfg : JobConfig) (env : RunEnv) : Except String (List Event) := do
  let built ← nextflowBuild cfg (env.isDirAt cfg.pipeline_name)
  let req := launchRequestOf cfg built.2
  let jobRequestFile := cfg.tmp_dir ++ "/job_request.txt"
  if cfg.dry_run then
    pure [.fileWriteReq jobRequestFile req,
      .logInfo ("[DRY-RUN] Will submit the following job request: " ++ jobRequestFile)]
  else
    pure [.netCreateJob req,
      .fileWriteResp jobRequestFile req,
      .logInfo ("Job request submitted: " ++ jobRequestFile),
      .logInfo ("Job logs:   https://console.cloud.google.com/batch/jobsDetail/regions/" ++
        cfg.region ++ "/jobs/" ++ cfg.job_id ++ "/logs?"),
      .logInfo ("Job status: gcloud batch jobs describe --location=" ++ cfg.region ++ " " ++
        cfg.job_id ++ " | grep \x27state:\x27"),
      .logInfo ("Cancel job: gcloud batch jobs cancel --location=" ++ cfg.region ++ " " ++
        cfg.job_id)]

/-! ## Command characterization helpers -/

/-- The first fragment of the built command: the `cd`-prefixed shell chain
for a directory pipeline, plain `nextflow` otherwise. -/
def headFragOf (cfg : JobConfig) (iD : Bool) : String :=
  if iD then
    "cd " ++ cfg.config_mount_path ++ "/config/" ++ pathNameStr cfg.pipeline_name ++
      " && nextflow"
  else "nextflow"

/-- The run-invocation fragment after the overrides: `run .` for a
directory, the mounted basename for a `.nf` file, the remote reference with
`-revision` otherwise. -/
def runFragOf (cfg : JobConfig) (iD : Bool) : String :=
  if iD then "run ."
  else if pyEndsWith cfg.pipeline_name ".nf" then
    "run " ++ cfg.config_mount_path ++ "/config/" ++ pathNameStr cfg.pipeline_name
  else "run " ++ cfg.pipeline_name ++ " -revision " ++ cfg.pipeline_version

/-- The optional fragments `appendOptions` appends, as a standalone list. -/
def optTailOf (cfg : JobConfig) : List String :=
  (match (if cfg.config_file ≠ "" then some (pathNameStr cfg.config_file) else none) with
   | some n =>
     if n ≠ "" then ["-c " ++ cfg.config_mount_path ++ "/config/" ++ n] else []
   | none => []) ++
  (match (if cfg.params_file ≠ "" then some (pathNameStr cfg.params_file) else none) with
   | some n =>
     if n ≠ "" then ["-params-file " ++ cfg.config_mount_path ++ "/input/" ++ n] else []
   | none => []) ++
  (if cfg.profile ≠ "" then ["-profile " ++ cfg.profile] else [])

/-! ## Concrete instances used by witnesses and counterexamples -/

def cfgC9a : JobConfig := { workflowrun_id := "aaaaaaaa11111111", sample_id := some "s1" }

def cfgC9b : JobConfig := { workflowrun_id := "aaaaaaaa22222222", sample_id := some "s1" }

def cfgC10 : JobConfig := { workflowrun_id := "ABCDEFGHI", sample_id := none }

def cfgC10b : JobConfig := { workflowrun_id := "abcd1234wxyz5678", sample_id := none }

def cfgC10c : JobConfig := { workflowrun_id := "abcd1234wxyz5678", sample_id := some "S1,S2" }

def cfgC4 : JobConfig :=
  { executor_config_file := "/tmp/wf/gcp.config", dry_run := true,
    labels := [("team", "x")], workflowrun_id := "wfid123" }

/-- Path components that survive a render/re-parse round trip: nonempty,
not a dot component, and slash-free. -/
def goodComp (c : List Char) : Prop :=
  c ≠ [] ∧ c ≠ ['.'] ∧ c ≠ ['.', '.'] ∧ '/' ∉ c

def cfgC5 : JobConfig :=
  { remote_run_path := "my-bucket/run", workflowrun_id := "test-workflow-123",
    params_file := "/local/params.yaml", samplesheet := "/local/samplesheet.csv" }

def cfgC1 : JobConfig :=
  { remote_run_path := "my-bucket/run", remote_cache_path := "my-bucket/cache",
    workflowrun_id := "wfrun1234", dry_run := true, tmp_dir := "/tmp/wf",
    pipeline_name := "nf-core/x", pipeline_version := "1.0",
    config_mount_path := "/etc/nextflow", executor_config_file := "/tmp/wf/gcp.config" }

def envC1 : RunEnv := { isDirAt := fun s => s == "/data/pipe" }

def entriesC1 : List DirEntry := [{ rel := ["main.nf".data], isDirEntry := false }]

def cfgC8 : JobConfig := { pipeline_name := "sub/pipe" }

def envC8 : RunEnv := { cwd := ["home".data], pathExistsAt := fun s => s == "sub/pipe" }

/-- Files of a directory listing whose full resolved paths contain no
`.git` component (what `iter_directory_files` keeps, entry form). -/
def gitFreeFiles (rootComps : List (List Char)) (entries : List DirEntry) : List DirEntry :=
  entries.filter (fun e => !e.isDirEntry &&
    !((rootComps ++ e.rel).any (fun part => part = ".git".data)))

/-- Number of regular files that do not sit below a directory named `.git`
(the file's own name is not considered): the count named by the original
claim C6. -/
def filesNotUnderGitDir (rootComps : List (List Char)) (entries : List DirEntry) : Nat :=
  (entries.filter (fun e => !e.isDirEntry &&
    !((rootComps ++ e.rel).dropLast.any (fun part => part = ".git".data)))).length

def cfgC6 : JobConfig :=
  { remote_run_path := "my-bucket/run", workflowrun_id := "wfrun1", dry_run := false }

def envC6 : RunEnv := { isDirAt := fun s => s == "/repo" }

def entriesC6 : List DirEntry :=
  [{ rel := ["a.txt".data], isDirEntry := false },
   { rel := [".git".data], isDirEntry := false }]

def cfgC3 : JobConfig :=
  { pipeline_name := "nf-core/x", pipeline_version := "1.0",
    config_mount_path := "/etc/nextflow", executor_config_file := "/tmp/gcp.config",
    workflowrun_id := "wfid123", remote_cache_path := "b/cache", resume := "run123," }

def cfgC3b : JobConfig :=
  { pipeline_name := "nf-core/x", pipeline_version := "1.0",
    config_mount_path := "/etc/nextflow", executor_config_file := "/tmp/gcp.config",
    workflowrun_id := "wfid123", remote_cache_path := "b/cache",
    resume := "run123,sess456" }

def cfgC3bad : JobConfig :=
  { pipeline_name := "nf-core/x", pipeline_version := "1.0",
    config_mount_path := "/etc/nextflow", executor_config_file := "/tmp/gcp.config",
    workflowrun_id := "wfid123", remote_cache_path := "b/cache", resume := "badtoken" }

def partsC3b : List String := ((nextflowBuild cfgC3b false).toOption.map Prod.fst).getD []

def cmdC3b : String := ((nextflowBuild cfgC3b false).toOption.map Prod.snd).getD ""

def cfgC2r : JobConfig :=
  { pipeline_name := "nf-core/sarek", pipeline_version := "3.4",
    config_mount_path := "/etc/nextflow", executor_config_file := "/tmp/gcp.config",
    workflowrun_id := "wfid123", remote_cache_path := "b/cache" }

def cfgC2f : JobConfig :=
  { pipeline_name := "/w/main.nf",
    config_mount_path := "/etc/nextflow", executor_config_file := "/tmp/gcp.config",
    workflowrun_id := "wfid123", remote_cache_path := "b/cache" }

def cfgC2d : JobConfig :=
  { pipeline_name := "/work/pipe",
    config_mount_path := "/etc/nextflow", executor_config_file := "/tmp/gcp.config",
    workflowrun_id := "wfid123", remote_cache_path := "b/cache" }

def partsC2r : List String := ((nextflowBuild cfgC2r false).toOption.map Prod.fst).getD []

def cmdC2r : String := ((nextflowBuild cfgC2r false).toOption.map Prod.snd).getD ""

def partsC2f : List String := ((nextflowBuild cfgC2f false).toOption.map Prod.fst).getD []

def cmdC2f : String := ((nextflowBuild cfgC2f false).toOption.map Prod.snd).getD ""

def partsC2d : List String := ((nextflowBuild cfgC2d true).toOption.map Prod.fst).getD []

def cmdC2d : String := ((nextflowBuild cfgC2d true).toOption.map Prod.snd).getD ""

/-! ## Theorems -/

theorem strEq_of_data (a b : String) (h : a.data = b.data) : a = b := by
  cases a; cases b; exact congrArg String.mk h

/-- C9: for all Job Configurations, `job_id` is a pure deterministic
function of the configuration's `sample_id` and the first 8 characters of
`workflowrun_id`: two constructed configurations agreeing on those derive
the same `job_id` string. -/
theorem job_id_deterministic (c1 c2 : JobConfig) (e1 e2 : RunEnv)
    (hs : (c1.postInit e1).sample_id = (c2.postInit e2).sample_id)
    (hw : pyTake c1.workflowrun_id 8 = pyTake c2.workflowrun_id 8) :
    (c1.postInit e1).job_id = (c2.postInit e2).job_id := by
  simp only [JobConfig.postInit, Option.some.injEq] at hs
  simp only [JobConfig.postInit]
  rw [hs, hw]

/-- Witness for C9 at two concrete configurations sharing the sample id and
the first 8 id characters. -/
theorem job_id_deterministic_witness :
    (cfgC9a.postInit {}).sample_id = (cfgC9b.postInit {}).sample_id ∧
    pyTake cfgC9a.workflowrun_id 8 = pyTake cfgC9b.workflowrun_id 8 ∧
    (cfgC9a.postInit {}).job_id = (cfgC9b.postInit {}).job_id :=
  ⟨by decide, by decide, job_id_deterministic cfgC9a cfgC9b {} {} (by decide) (by decide)⟩

/-- C10 counterexample: with `sample_id` absent, `job_id` is not the plain
concatenation of the last and first 8 characters of `workflowrun_id` — the
defaulted sample id is also lowercased (and de-comma-ed) on the way into
`job_id`. -/
theorem default_sample_job_id_cex :
    (cfgC10.postInit {}).sample_id = some (pyTakeRight cfgC10.workflowrun_id 8) ∧
    (cfgC10.postInit {}).job_id ≠
      "nf-runner-" ++ pyTakeRight cfgC10.workflowrun_id 8 ++ "-" ++
        pyTake cfgC10.workflowrun_id 8 ∧
    (cfgC10.postInit {}).job_id = "nf-runner-bcdefghi-ABCDEFGH" := by decide

/-- C10 (amended): with `sample_id` absent (None or empty), construction
sets `sample_id` to the last 8 characters of `workflowrun_id`, and `job_id`
is `nf-runner-` followed by that defaulted sample id lowercased with commas
replaced by hyphens, a `-`, and the first 8 characters of
`workflowrun_id`; a supplied sample id is transformed the same way. -/
theorem default_sample_id_and_job_id (cfg : JobConfig) (env : RunEnv) :
    (cfg.sample_id = none ∨ cfg.sample_id = some "" →
      (cfg.postInit env).sample_id = some (pyTakeRight cfg.workflowrun_id 8) ∧
      (cfg.postInit env).job_id =
        "nf-runner-" ++ pyLower (pyReplaceChar ',' '-' (pyTakeRight cfg.workflowrun_id 8)) ++
          "-" ++ pyTake cfg.workflowrun_id 8) ∧
    (∀ s, cfg.sample_id = some s → s ≠ "" →
      (cfg.postInit env).job_id =
        "nf-runner-" ++ pyLower (pyReplaceChar ',' '-' s) ++ "-" ++
          pyTake cfg.workflowrun_id 8) := by
  constructor
  · intro h
    have hd : defaultedSampleId cfg = pyTakeRight cfg.workflowrun_id 8 := by
      rcases h with h | h <;> simp [defaultedSampleId, h]
    simp [JobConfig.postInit, hd, derivedJobId]
  · intro s hs hne
    have hd : defaultedSampleId cfg = s := by simp [defaultedSampleId, hs, hne]
    simp [JobConfig.postInit, hd, derivedJobId]

/-- Witness for the amended C10 at concrete configurations with absent and
with supplied sample ids. -/
theorem default_sample_id_and_job_id_witness :
    (cfgC10b.postInit {}).job_id = "nf-runner-wxyz5678-abcd1234" ∧
    (cfgC10c.postInit {}).job_id = "nf-runner-s1-s2-abcd1234" := by
  constructor
  · have h := (default_sample_id_and_job_id cfgC10b {}).1 (Or.inl rfl)
    rw [h.2]; decide
  · have h := (default_sample_id_and_job_id cfgC10c {}).2 "S1,S2" rfl (by decide)
    rw [h]; decide

theorem regLookup_eq_none_of_not_mem {V : Type} (m : List (String × V)) (key : String)
    (h : key ∉ regKeys m) : regLookup m key = none := by
  induction m with
  | nil => rfl
  | cons kv rest ih =>
    obtain ⟨k, v⟩ := kv
    simp only [regKeys, List.map_cons, List.mem_cons, not_or] at h
    simp only [regLookup]
    rw [if_neg (fun he => h.1 he.symm)]
    exact ih (by simpa [regKeys] using h.2)

theorem regLookup_register_self {V : Type} (m : List (String × V)) (key : String) (v : V) :
    regLookup (regRegister m key v) key = some v := by
  induction m with
  | nil => simp [regRegister, regLookup]
  | cons kv rest ih =>
    obtain ⟨k, w⟩ := kv
    by_cases hk : k = key
    · simp [regRegister, hk, regLookup]
    · simp [regRegister, hk, regLookup, ih]

/-- C7: looking up a key absent from a registry fails with the `ValueError`
whose message lists the currently registered keys (Python-rendered), and
looking up a registered key returns the registered classes. -/
theorem registry_get_spec {V : Type} (m : List (String × V)) (kind key : String) :
    (key ∉ regKeys m →
      regGet kind m key = .error ⟨kind, key, regKeys m⟩ ∧
      regErrMessage ⟨kind, key, regKeys m⟩ =
        ("Unknown " ++ kind ++ ": " ++ pyQuoted key ++ ". Available " ++ kind ++ "s: ") ++
          pyStrListRepr (regKeys m)) ∧
    (∀ v, regLookup m key = some v → regGet kind m key = .ok v) ∧
    (∀ v, regGet kind (regRegister m key v) key = .ok v) := by
  refine ⟨fun h => ⟨?_, ?_⟩, fun v hv => ?_, fun v => ?_⟩
  · simp [regGet, regLookup_eq_none_of_not_mem m key h]
  · apply strEq_of_data; simp [regErrMessage, pyQuoted, List.append_assoc]
  · simp [regGet, hv]
  · simp [regGet, regLookup_register_self]

/-- Witness for C7 on the two concrete registries of `registry.py`. -/
theorem registry_get_spec_witness :
    regGet "backend" backendRegistryMap "aws-batch" =
      .error ⟨"backend", "aws-batch", regKeys backendRegistryMap⟩ ∧
    regErrMessage ⟨"backend", "aws-batch", regKeys backendRegistryMap⟩ =
      "Unknown backend: \x27aws-batch\x27. Available backends: [\x27google-batch\x27]" ∧
    regGet "backend" backendRegistryMap "google-batch" =
      .ok (.gcpBatchClient, .gcpJobConfigBuilder) ∧
    regGet "plugin" pluginRegistryMap "nonexistent" =
      .error ⟨"plugin", "nonexistent", regKeys pluginRegistryMap⟩ := by
  refine ⟨?_, by decide, ?_, ?_⟩
  · exact ((registry_get_spec backendRegistryMap "backend" "aws-batch").1 (by decide)).1
  · exact (registry_get_spec backendRegistryMap "backend" "google-batch").2.1 _ (by decide)
  · exact ((registry_get_spec pluginRegistryMap "plugin" "nonexistent").1 (by decide)).1

/-- C4: contrary to the claim (and to the builder's own docstring), with
`dry_run` set `GCPExecutorConfigBuilder.build` still writes the executor
config file — the write happens before the dry-run check — and then logs
the dry-run destination line. -/
theorem executor_build_writes_in_dry_run :
    cfgC4.dry_run = true ∧
    gcpExecutorBuild cfgC4 (fun _ => "RENDERED") "EXTRAS" "20240101_000000" =
      [Event.fileWrite "/tmp/wf/gcp.config" "RENDEREDEXTRAS",
       Event.logInfo "[DRY-RUN] Will write executor config file /tmp/wf/gcp.config"] ∧
    (gcpExecutorBuild cfgC4 (fun _ => "RENDERED") "EXTRAS" "20240101_000000").any
      Event.isLocalWrite = true := by decide

theorem parseGcsPath_prepend (runPath : String) :
    parseGcsPath ("gs://" ++ runPath) = .ok (gcsBucketOf runPath, gcsObjectPfxOf runPath) := by
  have hdata : ("gs://" ++ runPath).data = 'g' :: 's' :: ':' :: '/' :: '/' :: runPath.data := rfl
  simp [parseGcsPath, hdata, List.isPrefixOf, gcsBucketOf, gcsObjectPfxOf]

theorem normAux_concat_good (l : List (List Char)) (c : List Char)
    (h0 : c ≠ []) (h1 : c ≠ ['.']) (h2 : c ≠ ['.', '.']) :
    ∀ acc, normAux acc (l ++ [c]) = normAux acc l ++ [c] := by
  induction l with
  | nil =>
    intro acc
    simp [normAux, h0, h1, h2]
  | cons d rest ih =>
    intro acc
    by_cases hd : d = [] ∨ d = ['.']
    · simp [normAux, hd, ih]
    · by_cases hdd : d = ['.', '.']
      · simp [normAux, hd, hdd, ih]
      · simp [normAux, hd, hdd, ih]

theorem pathSplit_decomp (p : String) (h : pathNameStr p ≠ "") :
    ∃ t, pathSplit p = t ++ [(pathNameStr p).data] := by
  cases e : (pathSplit p).getLast? with
  | none =>
    exfalso
    apply h
    simp [pathNameStr, e]
  | some x =>
    have hx : (pathNameStr p).data = x := by simp [pathNameStr, e]
    rw [hx]
    exact List.getLast?_eq_some_iff.mp e

theorem resolveComps_getLast (cwd : List (List Char)) (p : String)
    (h1 : pathNameStr p ≠ "") (h2 : pathNameStr p ≠ "..") :
    (resolveComps cwd p).getLast? = some (pathNameStr p).data := by
  obtain ⟨t, ht⟩ := pathSplit_decomp p h1
  have hmem : (pathNameStr p).data ∈ pathSplit p := by
    rw [ht]; exact List.mem_append_right t (List.mem_singleton_self _)
  have hfil := (List.mem_filter.mp hmem).2
  have h0 : (pathNameStr p).data ≠ [] := by
    intro hc
    apply h1
    apply strEq_of_data
    simpa using hc
  have hdot : (pathNameStr p).data ≠ ['.'] := by
    simp at hfil
    exact fun hc => hfil.2 (by rw [hc])
  have hddot : (pathNameStr p).data ≠ ['.', '.'] := by
    intro hc
    apply h2
    apply strEq_of_data
    simpa using hc
  unfold resolveComps
  dsimp only
  rw [ht, ← List.append_assoc, normAux_concat_good _ _ h0 hdot hddot]
  exact List.getLast?_concat _

/-- C5: the uploader classifies a path equal to the configured params file
or samplesheet under `input`, everything else under `config`; the uploaded
blob is the run prefix, the workflow-run id, the class, and the basename;
concretely the example of the specification uploads to
`run/test-workflow-123/input/params.yaml`. -/
theorem upload_destination_classification (cfg : JobConfig) (env : RunEnv) (p : String)
    (h1 : pathNameStr p ≠ "") (h2 : pathNameStr p ≠ "..") :
    (p = cfg.params_file ∨ p = cfg.samplesheet →
      uploadDestination cfg env p =
        gcsObjectPfxOf cfg.remote_run_path ++ "/" ++ cfg.workflowrun_id ++ "/" ++ "input" ++
          "/" ++ pathNameStr p) ∧
    (¬(p = cfg.params_file ∨ p = cfg.samplesheet) →
      uploadDestination cfg env p =
        gcsObjectPfxOf cfg.remote_run_path ++ "/" ++ cfg.workflowrun_id ++ "/" ++ "config" ++
          "/" ++ pathNameStr p) ∧
    (cfg.dry_run = false →
      gcpUpload cfg env p = .ok
        [.netUploadBlob (gcsBucketOf cfg.remote_run_path) (uploadDestination cfg env p) p,
         .logInfo ("Uploaded " ++ lastTwoStr (resolveComps env.cwd p) ++ " to gs://" ++
           gcsBucketOf cfg.remote_run_path ++ "/" ++ uploadDestination cfg env p)]) ∧
    uploadDestination cfgC5 {} "/local/params.yaml" =
      "run/test-workflow-123/input/params.yaml" := by
  have hname : String.mk ((resolveComps env.cwd p).getLast?.getD []) = pathNameStr p := by
    rw [resolveComps_getLast env.cwd p h1 h2]
    rfl
  refine ⟨fun hin => ?_, fun hnin => ?_, fun hdry => ?_, by decide⟩
  · unfold uploadDestination uploadSubdirectory
    rw [if_pos hin, hname]
  · unfold uploadDestination uploadSubdirectory
    rw [if_neg hnin, hname]
  · simp [gcpUpload, parseGcsPath_prepend, hdry, uploadDestination, uploadSubdirectory]

/-- Witness for C5 at the specification's concrete example. -/
theorem upload_destination_classification_witness :
    pathNameStr "/local/params.yaml" ≠ "" ∧ pathNameStr "/local/params.yaml" ≠ ".." ∧
    "/local/params.yaml" = cfgC5.params_file ∧
    uploadDestination cfgC5 {} "/local/params.yaml" =
      gcsObjectPfxOf cfgC5.remote_run_path ++ "/" ++ cfgC5.workflowrun_id ++ "/" ++ "input" ++
        "/" ++ pathNameStr "/local/params.yaml" ∧
    uploadDestination cfgC5 {} "/local/params.yaml" =
      "run/test-workflow-123/input/params.yaml" := by
  have t := upload_destination_classification cfgC5 {} "/local/params.yaml"
    (by decide) (by decide)
  exact ⟨by decide, by decide, by decide, t.1 (Or.inl (by decide)), t.2.2.2⟩

/-- C1: with `dry_run` set, `upload`, `upload_directory`, and `launch_job`
perform no network call against cloud storage or the batch API; each
instead emits the dry-run log line describing the intended action, and
`launch_job` serializes the job request to the local artifact file and
stops. -/
theorem dry_run_no_network (cfg : JobConfig) (env : RunEnv)
    (p d : String) (entries : List DirEntry) (mw : Nat)
    (h : cfg.dry_run = true) :
    gcpUpload cfg env p = .ok
      [.logInfo ("[DRY-RUN] Will upload " ++ lastTwoStr (resolveComps env.cwd p) ++
        " to gs://" ++ gcsBucketOf cfg.remote_run_path ++ "/" ++ uploadDestination cfg env p)] ∧
    noNetworkCalls (eventsOf (gcpUpload cfg env p)) = true ∧
    (env.isDirAt (renderAbs (resolveComps env.cwd d)) = true →
      gcpUploadDirectory cfg env entries d mw = .ok
        [.logInfo ("[DRY-RUN] Found " ++
            toString (dirUploadRelFiles (resolveComps env.cwd d) entries).length ++
            " files in " ++ renderAbs (resolveComps env.cwd d) ++ " ready to upload"),
         .logInfo ("[DRY-RUN] Will upload " ++ renderAbs (resolveComps env.cwd d) ++
            " to gs://" ++ gcsBucketOf cfg.remote_run_path ++ "/" ++
            dirUploadBlobPfx cfg (resolveComps env.cwd d))]) ∧
    noNetworkCalls (eventsOf (gcpUploadDirectory cfg env entries d mw)) = true ∧
    (∀ parts cmd, nextflowBuild cfg (env.isDirAt cfg.pipeline_name) = .ok (parts, cmd) →
      gcpLaunchJob cfg env = .ok
        [.fileWriteReq (cfg.tmp_dir ++ "/job_request.txt") (launchRequestOf cfg cmd),
         .logInfo ("[DRY-RUN] Will submit the following job request: " ++
           (cfg.tmp_dir ++ "/job_request.txt"))]) ∧
    noNetworkCalls (eventsOf (gcpLaunchJob cfg env)) = true := by
  have hup : gcpUpload cfg env p = .ok
      [.logInfo ("[DRY-RUN] Will upload " ++ lastTwoStr (resolveComps env.cwd p) ++
        " to gs://" ++ gcsBucketOf cfg.remote_run_path ++ "/" ++ uploadDestination cfg env p)] := by
    simp [gcpUpload, parseGcsPath_prepend, h, uploadDestination, uploadSubdirectory]
  refine ⟨hup, by simp [hup, eventsOf, noNetworkCalls, Event.isNet], fun hdir => ?_, ?_,
    fun parts cmd hb => ?_, ?_⟩
  · simp [gcpUploadDirectory, parseGcsPath_prepend, h, hdir, dirUploadBlobPfx, dirUploadRelFiles]
  · by_cases hdir : env.isDirAt (renderAbs (resolveComps env.cwd d)) = true
    · simp [gcpUploadDirectory, parseGcsPath_prepend, h, hdir, eventsOf, noNetworkCalls,
        Event.isNet]
    · simp at hdir
      simp [gcpUploadDirectory, hdir, eventsOf, noNetworkCalls]
  · simp [gcpLaunchJob, hb, h]
  · cases hb : nextflowBuild cfg (env.isDirAt cfg.pipeline_name) with
    | error e => simp [gcpLaunchJob, hb, eventsOf, noNetworkCalls, bind, Except.bind]
    | ok r => simp [gcpLaunchJob, hb, h, eventsOf, noNetworkCalls, Event.isNet, bind,
        Except.bind, pure, Except.pure]

/-- Witness for C1 at a concrete dry-run configuration. -/
theorem dry_run_no_network_witness :
    cfgC1.dry_run = true ∧
    noNetworkCalls (eventsOf (gcpUpload cfgC1 envC1 "/local/a.config")) = true ∧
    noNetworkCalls (eventsOf (gcpUploadDirectory cfgC1 envC1 entriesC1 "/data/pipe" 4)) = true ∧
    noNetworkCalls (eventsOf (gcpLaunchJob cfgC1 envC1)) = true := by
  have t := dry_run_no_network cfgC1 envC1 "/local/a.config" "/data/pipe" entriesC1 4 rfl
  exact ⟨rfl, t.2.1, t.2.2.2.1, t.2.2.2.2.2⟩

theorem mem_splitOnP_no_sep {α : Type} (p : α → Bool) :
    ∀ (xs : List α) (x : List α), x ∈ xs.splitOnP p → ∀ a ∈ x, p a = false := by
  intro xs
  induction xs with
  | nil =>
    intro x hx a ha
    simp [List.splitOnP_nil] at hx
    subst hx
    simp at ha
  | cons y ys ih =>
    intro x hx a ha
    rw [List.splitOnP_cons] at hx
    by_cases hy : p y
    · rw [if_pos hy] at hx
      rcases List.mem_cons.mp hx with h | h
      · subst h; simp at ha
      · exact ih x h a ha
    · rw [if_neg hy] at hx
      cases e : ys.splitOnP p with
      | nil => exact absurd e (List.splitOnP_ne_nil p ys)
      | cons hd tl =>
        rw [e] at hx
        simp only [List.modifyHead] at hx
        rcases List.mem_cons.mp hx with h | h
        · subst h
          rcases List.mem_cons.mp ha with h2 | h2
          · subst h2; simpa using hy
          · exact ih hd (by rw [e]; exact List.mem_cons_self hd tl) a h2
        · exact ih x (by rw [e]; exact List.mem_cons_of_mem hd h) a ha

theorem mem_splitOn_no_sep {α : Type} [DecidableEq α] (c : α) (xs : List α) (x : List α)
    (hx : x ∈ xs.splitOn c) : c ∉ x := by
  intro hc
  have := mem_splitOnP_no_sep (· == c) xs x hx c hc
  simp at this

theorem normAux_good (l : List (List Char)) (hl : ∀ c ∈ l, '/' ∉ c) :
    ∀ acc, (∀ c ∈ acc, goodComp c) → ∀ c ∈ normAux acc l, goodComp c := by
  induction l with
  | nil =>
    intro acc hacc c hc
    simp [normAux] at hc
    exact hacc c hc
  | cons d rest ih =>
    intro acc hacc c hc
    have hrest : ∀ c ∈ rest, '/' ∉ c := fun c hc => hl c (List.mem_cons_of_mem d hc)
    by_cases hd : d = [] ∨ d = ['.']
    · rw [show normAux acc (d :: rest) = normAux acc rest by simp [normAux, hd]] at hc
      exact ih hrest acc hacc c hc
    · by_cases hdd : d = ['.', '.']
      · rw [show normAux acc (d :: rest) = normAux (acc.drop 1) rest by
          simp [normAux, hd, hdd]] at hc
        exact ih hrest (acc.drop 1) (fun c hc => hacc c (List.mem_of_mem_drop hc)) c hc
      · rw [show normAux acc (d :: rest) = normAux (d :: acc) rest by
          simp [normAux, hd, hdd]] at hc
        refine ih hrest (d :: acc) ?_ c hc
        intro e he
        rcases List.mem_cons.mp he with h | h
        · have hg : goodComp d := ⟨fun h0 => hd (Or.inl h0), fun h1 => hd (Or.inr h1), hdd,
            hl d (List.mem_cons_self d rest)⟩
          exact h ▸ hg
        · exact hacc e h

theorem normAux_id_of_good (n : List (List Char)) (hn : ∀ c ∈ n, goodComp c) :
    ∀ acc, normAux acc n = acc.reverse ++ n := by
  induction n with
  | nil => intro acc; simp [normAux]
  | cons d rest ih =>
    intro acc
    obtain ⟨h0, h1, h2, _⟩ := hn d (List.mem_cons_self d rest)
    rw [show normAux acc (d :: rest) = normAux (d :: acc) rest by
      simp [normAux, h0, h1, h2]]
    rw [ih (fun c hc => hn c (List.mem_cons_of_mem d hc)) (d :: acc)]
    simp

theorem pathSplit_renderAbs (n : List (List Char)) (hn : ∀ c ∈ n, goodComp c) :
    pathSplit (renderAbs n) = n := by
  have hdata : (renderAbs n).data = '/' :: List.intercalate ['/'] n := rfl
  unfold pathSplit
  rw [hdata]
  have hsplit : ('/' :: List.intercalate ['/'] n).splitOn '/' =
      [] :: (List.intercalate ['/'] n).splitOn '/' := by
    simp [List.splitOn, List.splitOnP_cons]
  rw [hsplit]
  cases n with
  | nil => simp [List.intercalate]
  | cons m ms =>
    rw [List.splitOn_intercalate (m :: ms) '/'
      (fun l hl => (hn l hl).2.2.2) (List.cons_ne_nil m ms)]
    rw [List.filter_cons_of_neg (by simp)]
    apply List.filter_eq_self.mpr
    intro c hc
    obtain ⟨h0, h1, _, _⟩ := hn c hc
    simp [h0, h1]

theorem isAbsStr_renderAbs (n : List (List Char)) : isAbsStr (renderAbs n) = true := rfl

theorem resolveComps_renderAbs (cwd n : List (List Char)) (hn : ∀ c ∈ n, goodComp c) :
    resolveComps cwd (renderAbs n) = n := by
  unfold resolveComps
  dsimp only
  rw [isAbsStr_renderAbs, if_pos rfl, pathSplit_renderAbs n hn, List.nil_append]
  simpa using normAux_id_of_good n hn []

theorem resolveComps_good (cwd : List (List Char)) (s : String)
    (hcwd : ∀ c ∈ cwd, '/' ∉ c) :
    ∀ c ∈ resolveComps cwd s, goodComp c := by
  unfold resolveComps
  dsimp only
  apply normAux_good
  · intro c hc
    rcases List.mem_append.mp hc with h | h
    · split at h
      · simp at h
      · exact hcwd c h
    · have := (List.mem_filter.mp h).1
      exact mem_splitOn_no_sep '/' s.data c this
  · intro c hc
    simp at hc

theorem resolveStr_idem (cwd : List (List Char)) (s : String)
    (hcwd : ∀ c ∈ cwd, '/' ∉ c) :
    resolveStr cwd (resolveStr cwd s) = resolveStr cwd s := by
  unfold resolveStr
  rw [resolveComps_renderAbs cwd _ (resolveComps_good cwd s hcwd)]

/-- C8: when the (stripped, expanded) pipeline reference exists on the local
file system, construction stores its absolute resolved form, and resolving
the stored reference again yields the same string. -/
theorem pipeline_resolved_idempotent (cfg : JobConfig) (env : RunEnv)
    (hcwd : ∀ c ∈ env.cwd, '/' ∉ c)
    (hex : env.pathExistsAt (env.expand (pyStrip cfg.pipeline_name)) = true) :
    (cfg.postInit env).pipeline_name =
      resolveStr env.cwd (env.expand (pyStrip cfg.pipeline_name)) ∧
    isAbsStr (cfg.postInit env).pipeline_name = true ∧
    resolveStr env.cwd ((cfg.postInit env).pipeline_name) =
      (cfg.postInit env).pipeline_name := by
  have hp : (cfg.postInit env).pipeline_name =
      resolveStr env.cwd (env.expand (pyStrip cfg.pipeline_name)) := by
    simp [JobConfig.postInit, hex]
  refine ⟨hp, ?_, ?_⟩
  · rw [hp]; exact isAbsStr_renderAbs _
  · rw [hp]; exact resolveStr_idem env.cwd _ hcwd

/-- Witness for C8 at a concrete relative pipeline path under a concrete
working directory. -/
theorem pipeline_resolved_idempotent_witness :
    (∀ c ∈ envC8.cwd, '/' ∉ c) ∧
    envC8.pathExistsAt (envC8.expand (pyStrip cfgC8.pipeline_name)) = true ∧
    (cfgC8.postInit envC8).pipeline_name = "/home/sub/pipe" ∧
    resolveStr envC8.cwd ((cfgC8.postInit envC8).pipeline_name) =
      (cfgC8.postInit envC8).pipeline_name := by
  have t := pipeline_resolved_idempotent cfgC8 envC8 (by decide) (by decide)
  exact ⟨by decide, by decide, by rw [t.1]; decide, t.2.2⟩

theorem iterDirectoryFiles_eq_gitFree (rootComps : List (List Char)) (entries : List DirEntry) :
    iterDirectoryFiles rootComps entries [".git".data] =
      (gitFreeFiles rootComps entries).map (fun e => rootComps ++ e.rel) := by
  unfold iterDirectoryFiles gitFreeFiles
  congr 1
  apply List.filter_congr
  intro e _
  simp [List.contains]

/-- C6 counterexample: a regular file named `.git` directly under the
uploaded directory is outside every `.git` subdirectory, yet the code skips
it (the exclusion tests every component of the file path, the file's own
name included), so only 1 of the 2 such files is transferred. -/
theorem upload_directory_git_file_cex :
    filesNotUnderGitDir (resolveComps envC6.cwd "/repo") entriesC6 = 2 ∧
    envC6.isDirAt (renderAbs (resolveComps envC6.cwd "/repo")) = true ∧
    cfgC6.dry_run = false ∧
    transferAttemptCount (eventsOf (gcpUploadDirectory cfgC6 envC6 entriesC6 "/repo" 4)) = 1 := by
  decide

/-- C6 (amended): a live directory upload attempts exactly one transfer per
regular file none of whose resolved path components equals `.git`, and each
destination is the `config/<directory-basename>/` blob prefix followed by
the file's path relative to the directory root. -/
theorem upload_directory_transfers (cfg : JobConfig) (env : RunEnv)
    (entries : List DirEntry) (d : String) (mw : Nat)
    (hdir : env.isDirAt (renderAbs (resolveComps env.cwd d)) = true)
    (hdry : cfg.dry_run = false) :
    gcpUploadDirectory cfg env entries d mw = .ok
      [.netTransferMany (gcsBucketOf cfg.remote_run_path)
        (dirUploadBlobPfx cfg (resolveComps env.cwd d))
        (dirUploadRelFiles (resolveComps env.cwd d) entries),
       .logInfo ("Uploaded " ++ renderAbs (resolveComps env.cwd d) ++ " to gs://" ++
         gcsBucketOf cfg.remote_run_path ++ "/" ++
         dirUploadBlobPfx cfg (resolveComps env.cwd d))] ∧
    transferAttemptCount (eventsOf (gcpUploadDirectory cfg env entries d mw)) =
      (gitFreeFiles (resolveComps env.cwd d) entries).length ∧
    transferDestinations (.netTransferMany (gcsBucketOf cfg.remote_run_path)
        (dirUploadBlobPfx cfg (resolveComps env.cwd d))
        (dirUploadRelFiles (resolveComps env.cwd d) entries)) =
      (gitFreeFiles (resolveComps env.cwd d) entries).map
        (fun e => dirUploadBlobPfx cfg (resolveComps env.cwd d) ++ renderRel e.rel) := by
  have hres : gcpUploadDirectory cfg env entries d mw = .ok
      [.netTransferMany (gcsBucketOf cfg.remote_run_path)
        (dirUploadBlobPfx cfg (resolveComps env.cwd d))
        (dirUploadRelFiles (resolveComps env.cwd d) entries),
       .logInfo ("Uploaded " ++ renderAbs (resolveComps env.cwd d) ++ " to gs://" ++
         gcsBucketOf cfg.remote_run_path ++ "/" ++
         dirUploadBlobPfx cfg (resolveComps env.cwd d))] := by
    simp [gcpUploadDirectory, parseGcsPath_prepend, hdir, hdry, dirUploadBlobPfx,
      dirUploadRelFiles]
  have hlen : (dirUploadRelFiles (resolveComps env.cwd d) entries).length =
      (gitFreeFiles (resolveComps env.cwd d) entries).length := by
    unfold dirUploadRelFiles relativePathsTo
    rw [iterDirectoryFiles_eq_gitFree]
    simp
  have hdest : transferDestinations (.netTransferMany (gcsBucketOf cfg.remote_run_path)
        (dirUploadBlobPfx cfg (resolveComps env.cwd d))
        (dirUploadRelFiles (resolveComps env.cwd d) entries)) =
      (gitFreeFiles (resolveComps env.cwd d) entries).map
        (fun e => dirUploadBlobPfx cfg (resolveComps env.cwd d) ++ renderRel e.rel) := by
    show (dirUploadRelFiles (resolveComps env.cwd d) entries).map
        (fun f => dirUploadBlobPfx cfg (resolveComps env.cwd d) ++ f) =
      (gitFreeFiles (resolveComps env.cwd d) entries).map
        (fun e => dirUploadBlobPfx cfg (resolveComps env.cwd d) ++ renderRel e.rel)
    unfold dirUploadRelFiles relativePathsTo
    rw [iterDirectoryFiles_eq_gitFree]
    simp only [List.map_map]
    apply List.map_congr_left
    intro e _
    simp [Function.comp, List.drop_left]
  refine ⟨hres, ?_, hdest⟩
  rw [hres]
  simp [eventsOf, transferAttemptCount, transferDestinations, hlen]

/-- Witness for the amended C6 at the concrete two-entry directory. -/
theorem upload_directory_transfers_witness :
    envC6.isDirAt (renderAbs (resolveComps envC6.cwd "/repo")) = true ∧
    cfgC6.dry_run = false ∧
    transferAttemptCount (eventsOf (gcpUploadDirectory cfgC6 envC6 entriesC6 "/repo" 4)) =
      (gitFreeFiles (resolveComps envC6.cwd "/repo") entriesC6).length ∧
    (gitFreeFiles (resolveComps envC6.cwd "/repo") entriesC6).length = 1 := by
  have t := upload_directory_transfers cfgC6 envC6 entriesC6 "/repo" 4 (by decide) rfl
  exact ⟨by decide, rfl, t.2.1, by decide⟩

theorem splitOnP_sep_append {α : Type} (p : α → Bool) (sep : α) (hsep : p sep = true) :
    ∀ (xs ys : List α), (xs ++ sep :: ys).splitOnP p = xs.splitOnP p ++ ys.splitOnP p := by
  intro xs ys
  induction xs with
  | nil => simp [List.splitOnP_cons, hsep]
  | cons x rest ih =>
    rw [List.cons_append, List.splitOnP_cons, List.splitOnP_cons]
    by_cases hx : p x
    · simp [hx, ih]
    · simp only [hx, if_neg, Bool.false_eq_true, not_false_eq_true]
      rw [ih]
      cases e : rest.splitOnP p with
      | nil => exact absurd e (List.splitOnP_ne_nil p rest)
      | cons hd tl => simp

theorem strTokens_append_space (a b : String) :
    strTokens (a ++ " " ++ b) = strTokens a ++ strTokens b := by
  have hd : (a ++ " " ++ b).data = a.data ++ ' ' :: b.data := by
    simp [List.append_assoc]
  unfold strTokens
  rw [hd]
  exact splitOnP_sep_append _ ' ' (by simp) a.data b.data

theorem strTokens_cmdJoin (cache j : String) :
    strTokens (cache ++ " && " ++ j) = strTokens cache ++ [['&', '&']] ++ strTokens j := by
  have h : cache ++ " && " ++ j = cache ++ " " ++ ("&&" ++ " " ++ j) := by
    apply strEq_of_data
    simp [List.append_assoc]
  rw [h, strTokens_append_space, strTokens_append_space]
  rw [show strTokens "&&" = [['&', '&']] from rfl]
  simp

theorem strTokens_joinWith_flatten :
    ∀ (l : List String), l ≠ [] → strTokens (joinWith " " l) = (l.map strTokens).flatten := by
  intro l
  induction l with
  | nil => intro h; exact absurd rfl h
  | cons x rest ih =>
    intro _
    cases rest with
    | nil => simp [joinWith]
    | cons y ys =>
      rw [show joinWith " " (x :: y :: ys) = x ++ " " ++ joinWith " " (y :: ys) from rfl]
      rw [strTokens_append_space, ih (List.cons_ne_nil y ys)]
      simp

theorem strTokens_single (s : String) (h : ' ' ∉ s.data) : strTokens s = [s.data] := by
  unfold strTokens
  apply List.splitOnP_eq_single
  intro x hx hpx
  simp at hpx
  exact h (hpx ▸ hx)

theorem strTokens_runRevision (name ver : String) :
    strTokens ("run " ++ name ++ " -revision " ++ ver) =
      ["run".data] ++ strTokens name ++ ["-revision".data] ++ strTokens ver := by
  have h : "run " ++ name ++ " -revision " ++ ver =
      "run" ++ " " ++ (name ++ " " ++ ("-revision" ++ " " ++ ver)) := by
    apply strEq_of_data
    simp [List.append_assoc]
  rw [h, strTokens_append_space, strTokens_append_space, strTokens_append_space]
  rw [show strTokens "run" = [['r', 'u', 'n']] from rfl,
    show strTokens "-revision" = [['-', 'r', 'e', 'v', 'i', 's', 'i', 'o', 'n']] from rfl]
  simp

theorem baseFragments_eq (cfg : JobConfig) (iD : Bool) :
    baseFragments cfg iD =
      [headFragOf cfg iD,
       "-log " ++ cfg.config_mount_path ++ "/logs/nextflow.log",
       runFragOf cfg iD,
       "-c " ++ cfg.config_mount_path ++ "/config/" ++ pathNameStr cfg.executor_config_file,
       "-name " ++ cfg.workflowrun_id] := by
  unfold baseFragments headFragOf runFragOf
  by_cases hd : iD <;> by_cases hn : pyEndsWith cfg.pipeline_name ".nf" <;>
    simp [hd, hn, List.set]

theorem appendOptions_eq (cfg : JobConfig) (l : List String) :
    appendOptions cfg l = l ++ optTailOf cfg := by
  unfold appendOptions optTailOf
  by_cases h1 : cfg.config_file = "" <;> by_cases h2 : cfg.params_file = "" <;>
    by_cases h3 : cfg.profile = "" <;>
      simp [h1, h2, h3] <;> (repeat' split) <;> simp

theorem optTailOf_shapes (cfg : JobConfig) :
    ∀ f ∈ optTailOf cfg,
      (∃ n, f = "-c " ++ cfg.config_mount_path ++ "/config/" ++ n) ∨
      (∃ n, f = "-params-file " ++ cfg.config_mount_path ++ "/input/" ++ n) ∨
      f = "-profile " ++ cfg.profile := by
  intro f hf
  unfold optTailOf at hf
  (repeat' split at hf) <;> simp at hf <;> aesop

theorem nextflowBuild_resume_error (cfg : JobConfig) (iD : Bool)
    (hne : cfg.resume ≠ "")
    (hlen : (cfg.resume.data.splitOn ',').length ≠ 2) :
    nextflowBuild cfg iD = .error
      ("Invalid resume format. Expected \x27WORKFLOWRUN_ID,SESSION_ID\x27, got \x27" ++
        cfg.resume ++ "\x27") := by
  unfold nextflowBuild
  dsimp only
  rw [if_pos hne]
  rcases e : cfg.resume.data.splitOn ',' with _ | ⟨a, _ | ⟨b, _ | ⟨c, rest⟩⟩⟩
  · rfl
  · rfl
  · exact absurd (by rw [e]; rfl) hlen
  · rfl

theorem nextflowBuild_ok_parts (cfg : JobConfig) (iD : Bool) (parts : List String) (cmd : String)
    (hb : nextflowBuild cfg iD = .ok (parts, cmd)) :
    ∃ nameFrag,
      parts =
        [headFragOf cfg iD,
         "-log " ++ cfg.config_mount_path ++ "/logs/nextflow.log",
         runFragOf cfg iD,
         "-c " ++ cfg.config_mount_path ++ "/config/" ++ pathNameStr cfg.executor_config_file,
         nameFrag] ++ optTailOf cfg ∧
      cmd = cacheCmdOf cfg ++ " && " ++ joinWith " " parts ∧
      (cfg.resume = "" → nameFrag = "-name " ++ cfg.workflowrun_id) ∧
      (∀ rn sid, cfg.resume.data.splitOn ',' = [rn, sid] → cfg.resume ≠ "" →
        nameFrag = "-name " ++ String.mk rn ++ " -resume " ++ String.mk sid) := by
  unfold nextflowBuild at hb
  dsimp only at hb
  by_cases hr : cfg.resume = ""
  · rw [if_neg (by simp [hr])] at hb
    simp only [appendOptions_eq, baseFragments_eq] at hb
    rw [Except.ok.injEq, Prod.mk.injEq] at hb
    obtain ⟨hp, hc⟩ := hb
    refine ⟨"-name " ++ cfg.workflowrun_id, hp.symm, ?_, fun _ => rfl,
      fun rn sid _ hne => absurd hr hne⟩
    rw [← hc, hp]
  · rw [if_pos hr] at hb
    rcases e : cfg.resume.data.splitOn ',' with _ | ⟨a, _ | ⟨b, _ | ⟨c, rest⟩⟩⟩ <;> rw [e] at hb
    · simp at hb
    · simp at hb
    · simp only [appendOptions_eq, baseFragments_eq] at hb
      rw [Except.ok.injEq, Prod.mk.injEq] at hb
      obtain ⟨hp, hc⟩ := hb
      refine ⟨"-name " ++ String.mk a ++ " -resume " ++ String.mk b, ?_, ?_,
        fun h => absurd h hr, fun rn sid he _ => ?_⟩
      · rw [← hp]
        simp [List.set]
      · rw [← hc, ← hp]
      · injection he with h1 h2
        injection h2 with h2 _
        rw [h1, h2]
    · simp at hb

/-- C3 counterexample: the resume token `run123,` splits into exactly two
parts with the second empty; the claim requires a validation failure, but
the build succeeds and emits `-name run123 -resume ` with an empty session
id. -/
theorem resume_empty_part_accepted_cex :
    cfgC3.resume = "run123," ∧
    (cfgC3.resume.data.splitOn ',').map String.mk = ["run123", ""] ∧
    (nextflowBuild cfgC3 false).toOption.isSome = true ∧
    (nextflowBuild cfgC3 false).toOption.map
      (fun r => r.1.contains "-name run123 -resume ") = some true := by
  decide

/-- C3 (amended): a resume token that splits into exactly two
comma-separated parts (empty parts allowed) replaces the run-naming clause
with `-name <RUN_NAME> -resume <SESSION_ID>` and drops the default
`-name <workflowrun_id>` clause; a token that does not split into exactly
two parts fails with the invalid-resume-format `ValueError`. -/
theorem resume_token_build (cfg : JobConfig) (iD : Bool) :
    (∀ rn sid parts cmd, cfg.resume ≠ "" →
      cfg.resume.data.splitOn ',' = [rn, sid] →
      nextflowBuild cfg iD = .ok (parts, cmd) →
      ("-name " ++ String.mk rn ++ " -resume " ++ String.mk sid) ∈ parts ∧
      (cfg.workflowrun_id ≠ String.mk rn ++ " -resume " ++ String.mk sid →
        ("-name " ++ cfg.workflowrun_id) ∉ parts)) ∧
    (cfg.resume ≠ "" → (cfg.resume.data.splitOn ',').length ≠ 2 →
      nextflowBuild cfg iD = .error
        ("Invalid resume format. Expected \x27WORKFLOWRUN_ID,SESSION_ID\x27, got \x27" ++
          cfg.resume ++ "\x27")) := by
  refine ⟨?_, nextflowBuild_resume_error cfg iD⟩
  intro rn sid parts cmd hne hsplit hb
  obtain ⟨nameFrag, hp, hc, _, hres⟩ := nextflowBuild_ok_parts cfg iD parts cmd hb
  have hnf : nameFrag = "-name " ++ String.mk rn ++ " -resume " ++ String.mk sid :=
    hres rn sid hsplit hne
  rw [hnf] at hp
  constructor
  · rw [hp]
    simp
  · intro hwne hmem
    rw [hp] at hmem
    rcases List.mem_append.mp hmem with h5 | htail
    · simp only [List.mem_cons, List.not_mem_nil, or_false] at h5
      rcases h5 with h | h | h | h | h
      · revert h
        unfold headFragOf
        split <;> simp [String.ext_iff]
      · simp [String.ext_iff] at h
      · revert h
        unfold runFragOf
        split
        · simp [String.ext_iff]
        · split <;> simp [String.ext_iff]
      · simp [String.ext_iff] at h
      · apply hwne
        apply strEq_of_data
        have hd := congrArg String.data h
        simpa [List.append_assoc] using hd
    · rcases optTailOf_shapes cfg _ htail with ⟨n, hn⟩ | ⟨n, hn⟩ | hn <;>
        simp [String.ext_iff] at hn

/-- C2 (amended): the builder classifies the pipeline reference into
exactly one of three kinds, with a directory taking precedence over the
`.nf` suffix: a remote reference produces the `run <ref> -revision <ver>`
clause (and a `-revision <ver>` token pair in the command); a `.nf` file
produces the mounted-basename run clause and no `-revision` token (given
that none of the command pieces carries one); a directory produces `run .`
and a workflow-engine invocation that begins, after the exported cache
settings, with `cd <mount>/config/<basename> && nextflow`. -/
theorem pipeline_kind_command (cfg : JobConfig) (iD : Bool) (parts : List String) (cmd : String)
    (hb : nextflowBuild cfg iD = .ok (parts, cmd)) :
    (iD = true → pipelineKind cfg iD = .localDir) ∧
    (pipelineKind cfg iD = .remote →
      ("run " ++ cfg.pipeline_name ++ " -revision " ++ cfg.pipeline_version) ∈ parts ∧
      (' ' ∉ cfg.pipeline_version.data →
        ∃ pre post, strTokens cmd =
          pre ++ "-revision".data :: cfg.pipeline_version.data :: post)) ∧
    (pipelineKind cfg iD = .localFile →
      ("run " ++ cfg.config_mount_path ++ "/config/" ++ pathNameStr cfg.pipeline_name) ∈ parts ∧
      ("-revision".data ∉ strTokens (cacheCmdOf cfg) →
        (∀ f ∈ parts, "-revision".data ∉ strTokens f) →
        "-revision".data ∉ strTokens cmd)) ∧
    (pipelineKind cfg iD = .localDir →
      "run ." ∈ parts ∧
      ∃ rest, cmd = cacheCmdOf cfg ++ " && " ++
        (("cd " ++ cfg.config_mount_path ++ "/config/" ++ pathNameStr cfg.pipeline_name ++
          " && nextflow") ++ " " ++ rest)) := by
  obtain ⟨nameFrag, hp, hc, _, _⟩ := nextflowBuild_ok_parts cfg iD parts cmd hb
  refine ⟨fun h => by simp [pipelineKind, h], fun hk => ?_, fun hk => ?_, fun hk => ?_⟩
  · -- remote
    have hiD : iD = false := by
      cases iD
      · rfl
      · simp [pipelineKind] at hk
    have hnf : pyEndsWith cfg.pipeline_name ".nf" = false := by
      by_cases hn : pyEndsWith cfg.pipeline_name ".nf"
      · simp [pipelineKind, hiD, hn] at hk
      · simpa using hn
    have hrun : runFragOf cfg iD = "run " ++ cfg.pipeline_name ++ " -revision " ++
        cfg.pipeline_version := by
      simp [runFragOf, hiD, hnf]
    constructor
    · rw [hp, ← hrun]
      simp
    · intro hv
      have hnonempty : parts ≠ [] := by rw [hp]; simp
      refine ⟨strTokens (cacheCmdOf cfg) ++ [['&', '&']] ++ strTokens (headFragOf cfg iD) ++
        strTokens ("-log " ++ cfg.config_mount_path ++ "/logs/nextflow.log") ++
        ["run".data] ++ strTokens cfg.pipeline_name,
        strTokens ("-c " ++ cfg.config_mount_path ++ "/config/" ++
          pathNameStr cfg.executor_config_file) ++ strTokens nameFrag ++
        ((optTailOf cfg).map strTokens).flatten, ?_⟩
      rw [hc, strTokens_cmdJoin, strTokens_joinWith_flatten parts hnonempty, hp]
      simp only [List.map_append, List.map_cons, List.flatten_append, List.flatten_cons,
        List.flatten_nil, List.map_nil, List.append_nil, List.nil_append]
      rw [hrun, strTokens_runRevision, strTokens_single _ hv]
      simp [List.append_assoc]
  · -- local file
    have hiD : iD = false := by
      cases iD
      · rfl
      · simp [pipelineKind] at hk
    have hnf : pyEndsWith cfg.pipeline_name ".nf" = true := by
      by_cases hn : pyEndsWith cfg.pipeline_name ".nf"
      · simpa using hn
      · simp [pipelineKind, hiD, hn] at hk
    have hrun : runFragOf cfg iD = "run " ++ cfg.config_mount_path ++ "/config/" ++
        pathNameStr cfg.pipeline_name := by
      simp [runFragOf, hiD, hnf]
    constructor
    · rw [hp, ← hrun]
      simp
    · intro hcache hall hmem
      have hnonempty : parts ≠ [] := by rw [hp]; simp
      rw [hc, strTokens_cmdJoin, strTokens_joinWith_flatten parts hnonempty] at hmem
      simp only [List.mem_append] at hmem
      rcases hmem with (h | h) | h
      · exact hcache h
      · simp at h
      · rw [List.mem_flatten] at h
        obtain ⟨t, ht, hmemt⟩ := h
        rw [List.mem_map] at ht
        obtain ⟨f, hf, hft⟩ := ht
        exact hall f hf (hft ▸ hmemt)
  · -- local directory
    have hiD : iD = true := by
      cases iD
      · simp [pipelineKind] at hk
        by_cases hn : pyEndsWith cfg.pipeline_name ".nf" <;> simp [hn] at hk
      · rfl
    subst hiD
    constructor
    · rw [hp, show runFragOf cfg true = "run ." from by simp [runFragOf]]
      simp
    · refine ⟨joinWith " " (["-log " ++ cfg.config_mount_path ++ "/logs/nextflow.log",
        runFragOf cfg true,
        "-c " ++ cfg.config_mount_path ++ "/config/" ++ pathNameStr cfg.executor_config_file,
        nameFrag] ++ optTailOf cfg), ?_⟩
      rw [hc, hp]
      rw [show headFragOf cfg true = "cd " ++ cfg.config_mount_path ++ "/config/" ++
        pathNameStr cfg.pipeline_name ++ " && nextflow" from by simp [headFragOf]]
      rfl

/-- C2 counterexample: for an existing local directory the string returned
by `build` does not begin with the directory change — it begins with the
exported cache settings. -/
theorem directory_command_not_cd_first_cex :
    pipelineKind cfgC2d true = .localDir ∧
    (nextflowBuild cfgC2d true).toOption.map (fun r => pyTake r.2 7) = some "export " ∧
    (nextflowBuild cfgC2d true).toOption.map (fun r => pyTake r.2 3 == "cd ") = some false := by
  decide

/-- Witness for the amended C2 at concrete remote, `.nf`-file, and
directory configurations. -/
theorem pipeline_kind_command_witness :
    ("run " ++ cfgC2r.pipeline_name ++ " -revision " ++ cfgC2r.pipeline_version) ∈ partsC2r ∧
    (∃ pre post, strTokens cmdC2r =
      pre ++ "-revision".data :: cfgC2r.pipeline_version.data :: post) ∧
    ("run " ++ cfgC2f.config_mount_path ++ "/config/" ++ pathNameStr cfgC2f.pipeline_name) ∈
      partsC2f ∧
    "-revision".data ∉ strTokens cmdC2f ∧
    "run ." ∈ partsC2d ∧
    (∃ rest, cmdC2d = cacheCmdOf cfgC2d ++ " && " ++
      (("cd " ++ cfgC2d.config_mount_path ++ "/config/" ++ pathNameStr cfgC2d.pipeline_name ++
        " && nextflow") ++ " " ++ rest)) := by
  have tr := pipeline_kind_command cfgC2r false partsC2r cmdC2r rfl
  have tf := pipeline_kind_command cfgC2f false partsC2f cmdC2f rfl
  have td := pipeline_kind_command cfgC2d true partsC2d cmdC2d rfl
  refine ⟨(tr.2.1 (by decide)).1, (tr.2.1 (by decide)).2 (by decide),
    (tf.2.2.1 (by decide)).1, (tf.2.2.1 (by decide)).2 (by decide) (by decide),
    (td.2.2.2 (by decide)).1, (td.2.2.2 (by decide)).2⟩

/-- Witness for the amended C3 at a well-formed and a malformed resume
token. -/
theorem resume_token_build_witness :
    cfgC3b.resume ≠ "" ∧
    cfgC3b.resume.data.splitOn ',' = ["run123".data, "sess456".data] ∧
    ("-name " ++ String.mk "run123".data ++ " -resume " ++ String.mk "sess456".data) ∈
      partsC3b ∧
    ("-name " ++ cfgC3b.workflowrun_id) ∉ partsC3b ∧
    nextflowBuild cfgC3bad false = .error
      ("Invalid resume format. Expected \x27WORKFLOWRUN_ID,SESSION_ID\x27, got \x27" ++
        cfgC3bad.resume ++ "\x27") := by
  have t := (resume_token_build cfgC3b false).1 "run123".data "sess456".data partsC3b cmdC3b
    (by decide) (by decide) rfl
  exact ⟨by decide, by decide, t.1, t.2 (by decide),
    (resume_token_build cfgC3bad false).2 (by decide) (by decide)⟩
